import Mathlib

/-!
Verification of the focus-backend OTP verification engine and temporal stat
engine (streaks, buddy decay, breed unlocks), shallowly embedded from the
JavaScript source. Timestamps are integers (milliseconds since epoch);
fractional quantities (hours since interaction) are rationals; the single
active record per (userId, purpose) pair is an `Option VerificationRecord`.
-/

/-- Ceiling division on integers, for a positive divisor: the least integer
greater than or equal to a / b. `Math.ceil(x)` applied to an exact quotient. -/
def intCeilDiv (a b : Int) : Int := -(Int.ediv (-a) b)

/-- One verification-token document, per the mongoose schema in
src/models/VerificationToken.js. The `type` field (purpose) is factored out:
all operations act on the single slot for a fixed (userId, purpose) pair. -/
structure VerificationRecord where
  userId : Nat
  email : String
  otp : String
  attempts : Nat
  maxAttempts : Nat
  resendCount : Nat
  lastResendAt : Int
  expiresAt : Int
  resetToken : Option String
  resetTokenExpiresAt : Option Int
  deriving Repr, DecidableEq

/-- Result of `createOTP`: either a rate-limit rejection carrying the wait in
minutes, or success carrying the plaintext code. -/
inductive CreateResult where
  | rateLimited (waitMinutes : Int)
  | ok (otp : String)
  deriving Repr, DecidableEq

/-- Embedding of `findOne({userId, type, lastResendAt: {$gte: tenMinutesAgo}})`
on the single (userId, purpose) slot. -/
def findRecent (now : Int) (state : Option VerificationRecord) :
    Option VerificationRecord :=
  match state with
  | none => none
  | some r => if now - 10 * 60 * 1000 ≤ r.lastResendAt then some r else none

/-- Embedding of `VerificationToken.createOTP` (src/models/VerificationToken.js,
lines 93-124). `newOtp` stands for the value drawn by the random-code
collaborator `generateOTP`. On success, `deleteMany` followed by `create`
replaces the slot with a fresh record. -/
def createOTP (now : Int) (userId : Nat) (email newOtp : String)
    (state : Option VerificationRecord) :
    CreateResult × Option VerificationRecord :=
  match findRecent now state with
  | some existing =>
    if 3 ≤ existing.resendCount then
      (.rateLimited
        (intCeilDiv (existing.lastResendAt + 10 * 60 * 1000 - now) (1000 * 60)),
       state)
    else
      (.ok newOtp,
       some { userId := userId, email := email, otp := newOtp, attempts := 0,
              maxAttempts := 5, resendCount := existing.resendCount + 1,
              lastResendAt := now, expiresAt := now + 10 * 60 * 1000,
              resetToken := none, resetTokenExpiresAt := none })
  | none =>
      (.ok newOtp,
       some { userId := userId, email := email, otp := newOtp, attempts := 0,
              maxAttempts := 5, resendCount := 0,
              lastResendAt := now, expiresAt := now + 10 * 60 * 1000,
              resetToken := none, resetTokenExpiresAt := none })

/-- Result of `verifyOTP`. -/
inductive VerifyResult where
  | notFound
  | expired
  | exhausted
  | mismatch (remainingAttempts : Nat)
  | success (userId : Nat)
  deriving Repr, DecidableEq

/-- Embedding of `VerificationToken.verifyOTP` (src/models/VerificationToken.js,
lines 127-164). Returns the outcome and the post-state of the slot. -/
def verifyOTP (now : Int) (otp : String) (state : Option VerificationRecord) :
    VerifyResult × Option VerificationRecord :=
  match state with
  | none => (.notFound, none)
  | some r =>
    if r.expiresAt < now then (.expired, none)
    else if r.maxAttempts ≤ r.attempts then (.exhausted, none)
    else if r.otp ≠ otp then
      (.mismatch (r.maxAttempts - (r.attempts + 1)),
       some { r with attempts := r.attempts + 1 })
    else (.success r.userId, none)

/-- Result of the verify-reset-otp route handler. -/
inductive ResetVerifyResult where
  | notFound
  | expired
  | exhausted
  | mismatch (remainingAttempts : Nat)
  | verified (resetToken : String)
  deriving Repr, DecidableEq

/-- Embedding of the POST /auth/verify-reset-otp handler core
(src/routes/auth.routes.js, lines 585-631), after input validation and user
lookup. Unlike `verifyOTP`, a successful match keeps the record and attaches a
reset token valid for 5 minutes. `newToken` stands for the randomly generated
opaque token. -/
def verifyResetOtp (now : Int) (otp newToken : String)
    (state : Option VerificationRecord) :
    ResetVerifyResult × Option VerificationRecord :=
  match state with
  | none => (.notFound, none)
  | some r =>
    if r.expiresAt < now then (.expired, none)
    else if r.maxAttempts ≤ r.attempts then (.exhausted, none)
    else if r.otp ≠ otp then
      (.mismatch (r.maxAttempts - (r.attempts + 1)),
       some { r with attempts := r.attempts + 1 })
    else
      (.verified newToken,
       some { r with resetToken := some newToken,
                     resetTokenExpiresAt := some (now + 5 * 60 * 1000) })

/-- Result of the reset-password route handler: invalidResetToken is the
"Invalid or expired reset token" rejection (no record matches userId, purpose
and resetToken), expiredResetToken the "Reset token has expired" rejection,
and success means the password change is permitted. -/
inductive ResetPasswordResult where
  | invalidResetToken
  | expiredResetToken
  | success
  deriving Repr, DecidableEq

/-- The JavaScript comparison `resetTokenExpiresAt < new Date()`: false when
the field is absent (comparing undefined yields false). -/
def resetTokenExpired (r : VerificationRecord) (now : Int) : Bool :=
  match r.resetTokenExpiresAt with
  | some t => decide (t < now)
  | none => false

/-- Embedding of the POST /auth/reset-password handler core
(src/routes/auth.routes.js, lines 654-682), after input validation. The
`findOne({userId, type, resetToken})` lookup on the single slot matches only
when the stored resetToken equals the presented one. On success the record is
deleted and the user password is updated (the update itself is the external
user-store collaborator). -/
def resetPassword (now : Int) (tok : String)
    (state : Option VerificationRecord) :
    ResetPasswordResult × Option VerificationRecord :=
  match state with
  | none => (.invalidResetToken, none)
  | some r =>
    if r.resetToken = some tok then
      if resetTokenExpired r now then (.expiredResetToken, none)
      else (.success, none)
    else (.invalidResetToken, some r)

/-- The user-document fields the temporal stat engine reads and writes
(src/unnamed/part_001, the User schema). Dates of sessions are UTC-midnight
millisecond timestamps of YYYY-MM-DD dates; lastBuddyInteraction is a
millisecond timestamp. -/
structure UserProgress where
  totalKibble : Int
  currentStreak : Int
  longestStreak : Int
  lastSessionDate : Option Int
  buddyHappiness : Int
  buddyFullness : Int
  lastBuddyInteraction : Int
  unlockedBreeds : List String
  deriving Repr, DecidableEq

/-- Embedding of `userSchema.methods.updateStreak` (src/unnamed/part_001,
lines 206-234). `Math.floor` of the exact day quotient is integer floor
division. -/
def updateStreak (p : UserProgress) (sessionDate : Int) : UserProgress :=
  let currentStreak :=
    match p.lastSessionDate with
    | none => 1
    | some last =>
      let diffDays := Int.ediv (sessionDate - last) (1000 * 60 * 60 * 24)
      if diffDays = 0 then p.currentStreak
      else if diffDays = 1 then p.currentStreak + 1
      else 1
  let longestStreak :=
    if currentStreak > p.longestStreak then currentStreak else p.longestStreak
  { p with currentStreak := currentStreak, longestStreak := longestStreak,
           lastSessionDate := some sessionDate }

/-- The value returned by `decayBuddyStats` to its caller. -/
structure DecayResult where
  happiness : Int
  fullness : Int
  hoursSinceInteraction : ℚ
  deriving Repr, DecidableEq

/-- Embedding of `userSchema.methods.decayBuddyStats` (src/unnamed/part_001,
lines 237-255): hoursSince is the exact fractional elapsed-hours quotient,
decay is Math.floor(hoursSince * 2), and when positive the happiness and
fullness fields are decremented in place with floors 20 and 10;
lastBuddyInteraction is left untouched. Returns the reported record and the
mutated document. -/
def decayBuddyStats (p : UserProgress) (now : Int) :
    DecayResult × UserProgress :=
  let hoursSince : ℚ := ((now - p.lastBuddyInteraction : Int) : ℚ) / (1000 * 60 * 60)
  let decay : Int := ⌊hoursSince * 2⌋
  let p2 :=
    if decay > 0 then
      { p with buddyHappiness := max 20 (p.buddyHappiness - decay),
               buddyFullness := max 10 (p.buddyFullness - decay) }
    else p
  ({ happiness := p2.buddyHappiness, fullness := p2.buddyFullness,
     hoursSinceInteraction := hoursSince }, p2)

/-- The BREED_UNLOCK_REQUIREMENTS mapping (src/unnamed/part_001, lines 5-15),
in its source (insertion) order, which Object.entries preserves. -/
def BREED_UNLOCK_REQUIREMENTS : List (String × Int) :=
  [("golden_retriever", 0), ("husky", 100), ("shiba_inu", 250),
   ("cavapoo", 500), ("french_bulldog", 750), ("labrador", 1000),
   ("dachshund", 1500), ("australian_shepherd", 2000), ("maltese", 3000)]

/-- Embedding of the loop body of `userSchema.methods.checkBreedUnlocks`
(src/unnamed/part_001, lines 192-203), generic in the entries list the loop
iterates over: each breed whose requirement is met and which is not yet in the
(growing) unlocked list is appended to it and reported. Returns the final
unlocked list and the newlyUnlocked report, in loop order. -/
def checkBreedUnlocks : List (String × Int) → Int → List String →
    List String × List String
  | [], _, unlocked => (unlocked, [])
  | (b, req) :: rest, kibble, unlocked =>
    if req ≤ kibble ∧ b ∉ unlocked then
      let res := checkBreedUnlocks rest kibble (unlocked ++ [b])
      (res.1, b :: res.2)
    else checkBreedUnlocks rest kibble unlocked

/-- `user.checkBreedUnlocks()` itself: the loop applied to the fixed
BREED_UNLOCK_REQUIREMENTS mapping and the document fields. -/
def userCheckBreedUnlocks (p : UserProgress) : UserProgress × List String :=
  let res := checkBreedUnlocks BREED_UNLOCK_REQUIREMENTS p.totalKibble
    p.unlockedBreeds
  ({ p with unlockedBreeds := res.1 }, res.2)

/-- Response of the POST /buddy/interact handler: a 400 error (for the treat
branch carrying the kibble balance), or the success payload. -/
inductive InteractResult where
  | badRequest (kibbleBalance : Option Int)
  | ok (kibbleSpent : Int) (happiness fullness kibbleBalance : Int)
  deriving Repr, DecidableEq

/-- Embedding of the POST /buddy/interact handler (src/unnamed/part_003,
lines 35-92): the switch over the action, with the treat branch returning
early — before any mutation and before lastBuddyInteraction is set — when
totalKibble < 10. Returns the response and the post-state of the document. -/
def buddyInteract (p : UserProgress) (action : String) (now : Int) :
    InteractResult × UserProgress :=
  if action = "pet" then
    let p1 := { p with buddyHappiness := min 100 (p.buddyHappiness + 5) }
    let p2 := { p1 with lastBuddyInteraction := now }
    (.ok 0 p2.buddyHappiness p2.buddyFullness p2.totalKibble, p2)
  else if action = "play" then
    let p1 := { p with buddyHappiness := min 100 (p.buddyHappiness + 10),
                       buddyFullness := max 0 (p.buddyFullness - 5) }
    let p2 := { p1 with lastBuddyInteraction := now }
    (.ok 0 p2.buddyHappiness p2.buddyFullness p2.totalKibble, p2)
  else if action = "treat" then
    if p.totalKibble < 10 then (.badRequest (some p.totalKibble), p)
    else
      let p1 := { p with totalKibble := p.totalKibble - 10,
                         buddyFullness := min 100 (p.buddyFullness + 20),
                         buddyHappiness := min 100 (p.buddyHappiness + 5) }
      let p2 := { p1 with lastBuddyInteraction := now }
      (.ok 10 p2.buddyHappiness p2.buddyFullness p2.totalKibble, p2)
  else (.badRequest none, p)

/-- UTC-midnight millisecond timestamp of 2024-01-01 (day 19723 since epoch),
the value of new Date("2024-01-01").getTime(). -/
def d20240101 : Int := 19723 * 86400000

/-- UTC-midnight millisecond timestamp of 2024-01-02. -/
def d20240102 : Int := 19724 * 86400000

/-- UTC-midnight millisecond timestamp of 2024-01-04. -/
def d20240104 : Int := 19726 * 86400000

/-- Claim C1, as stated, fails on the code: starting from no record, four
`createOTP` calls at the same instant all succeed — the 4th call returns a
fresh code, not a rate-limit rejection — and after the 3rd successful issuance
the resendCount is 2, not 3 (the first creation starts at 0). -/
theorem c1_counterexample :
    let s1 := (createOTP 0 1 "e" "111111" (none : Option VerificationRecord)).2
    let s2 := (createOTP 0 1 "e" "222222" s1).2
    let s3 := (createOTP 0 1 "e" "333333" s2).2
    (createOTP 0 1 "e" "444444" s3).1 = CreateResult.ok "444444" ∧
    s3.map VerificationRecord.resendCount = some 2 := by
  decide

/-- Claim C1 amended: for a (userId, purpose) with no prior record, `createOTP`
called five times within 10 minutes succeeds on the first four calls and fails
with RateLimited on the 5th; the resendCount reaches 3 after the 4th successful
issuance (it starts at 0 on the first creation and increments on each resend). -/
theorem c1_amended (t1 t2 t3 t4 t5 : Int) (u : Nat) (e c1 c2 c3 c4 c5 : String)
    (s0 : Option VerificationRecord) (h0 : s0 = none)
    (h12 : t1 ≤ t2) (h23 : t2 ≤ t3) (h34 : t3 ≤ t4) (h45 : t4 ≤ t5)
    (hw : t5 ≤ t1 + 10 * 60 * 1000) :
    let r1 := createOTP t1 u e c1 s0
    let r2 := createOTP t2 u e c2 r1.2
    let r3 := createOTP t3 u e c3 r2.2
    let r4 := createOTP t4 u e c4 r3.2
    let r5 := createOTP t5 u e c5 r4.2
    r1.1 = CreateResult.ok c1 ∧ r2.1 = CreateResult.ok c2 ∧
    r3.1 = CreateResult.ok c3 ∧ r4.1 = CreateResult.ok c4 ∧
    r4.2.map VerificationRecord.resendCount = some 3 ∧
    r5.1 = CreateResult.rateLimited
      (intCeilDiv (t4 + 10 * 60 * 1000 - t5) (1000 * 60)) := by
  subst h0
  have g1 : t2 ≤ t1 + 600000 := by omega
  have g2 : t3 ≤ t2 + 600000 := by omega
  have g3 : t4 ≤ t3 + 600000 := by omega
  have g4 : t5 ≤ t4 + 600000 := by omega
  simp [createOTP, findRecent, g1, g2, g3, g4]

/-- Witness for c1_amended at concrete inputs (all five calls at time 0). -/
theorem c1_amended_witness :
    let r1 := createOTP 0 1 "e" "111111" none
    let r2 := createOTP 0 1 "e" "222222" r1.2
    let r3 := createOTP 0 1 "e" "333333" r2.2
    let r4 := createOTP 0 1 "e" "444444" r3.2
    let r5 := createOTP 0 1 "e" "555555" r4.2
    r1.1 = CreateResult.ok "111111" ∧ r2.1 = CreateResult.ok "222222" ∧
    r3.1 = CreateResult.ok "333333" ∧ r4.1 = CreateResult.ok "444444" ∧
    r4.2.map VerificationRecord.resendCount = some 3 ∧
    r5.1 = CreateResult.rateLimited
      (intCeilDiv (0 + 10 * 60 * 1000 - 0) (1000 * 60)) :=
  c1_amended 0 0 0 0 0 1 "e" "111111" "222222" "333333" "444444" "555555"
    none rfl (by decide) (by decide) (by decide) (by decide) (by decide)

/-- Claim C5: `createOTP` fails with RateLimited exactly when a record for the
(userId, purpose) pair exists with lastResendAt within the last 10 minutes and
resendCount at least 3, and in that case the rejection carries the remaining
wait in minutes, ceil((lastResendAt + 10 min − now) / 1000 / 60). -/
theorem c5_rate_limit_iff (now : Int) (u : Nat) (e c : String)
    (state : Option VerificationRecord) :
    ((∃ w, (createOTP now u e c state).1 = CreateResult.rateLimited w) ↔
      (∃ r, state = some r ∧ now - 10 * 60 * 1000 ≤ r.lastResendAt ∧
        3 ≤ r.resendCount)) ∧
    (∀ r, state = some r → now - 10 * 60 * 1000 ≤ r.lastResendAt →
      3 ≤ r.resendCount →
      (createOTP now u e c state).1 =
        CreateResult.rateLimited
          (intCeilDiv (r.lastResendAt + 10 * 60 * 1000 - now) (1000 * 60))) := by
  constructor
  · cases state with
    | none => simp [createOTP, findRecent]
    | some r =>
      by_cases hw : now ≤ r.lastResendAt + 600000
      · by_cases hc : 3 ≤ r.resendCount
        · simp [createOTP, findRecent, hw, hc]
        · simp [createOTP, findRecent, hw, hc]
      · simp [createOTP, findRecent, hw]
  · rintro r rfl hw hc
    have hw2 : now ≤ r.lastResendAt + 600000 := by omega
    simp [createOTP, findRecent, hw2, hc]

/-- Claim C2, as stated, fails on the code: with a fresh unexpired record
(attempts 0, maxAttempts 5), the 5th wrong-code call yields Mismatch with 0
remaining attempts and keeps the record; it does not yield Exhausted and does
not delete the record. -/
theorem c2_counterexample :
    let r0 : VerificationRecord := ⟨1, "e", "123456", 0, 5, 0, 0, 600000, none, none⟩
    let v1 := verifyOTP 0 "000000" (some r0)
    let v2 := verifyOTP 0 "000000" v1.2
    let v3 := verifyOTP 0 "000000" v2.2
    let v4 := verifyOTP 0 "000000" v3.2
    let v5 := verifyOTP 0 "000000" v4.2
    v5.1 = VerifyResult.mismatch 0 ∧ v5.1 ≠ VerifyResult.exhausted ∧
    v5.2 ≠ none := by
  decide

/-- Claim C2 amended: with a fresh unexpired record (attempts 0, default
maxAttempts 5), each of the first maxAttempts wrong-code calls yields Mismatch
with maxAttempts − k remaining after the k-th call (0 remaining after the 5th),
the record surviving with attempts = 5; the (maxAttempts + 1)-th call yields
Exhausted and deletes the record, and the call after that yields NotFound. -/
theorem c2_amended (now : Int) (r : VerificationRecord) (c : String)
    (hA : r.attempts = 0) (hM : r.maxAttempts = 5)
    (hE : ¬ r.expiresAt < now) (hC : r.otp ≠ c) :
    let v1 := verifyOTP now c (some r)
    let v2 := verifyOTP now c v1.2
    let v3 := verifyOTP now c v2.2
    let v4 := verifyOTP now c v3.2
    let v5 := verifyOTP now c v4.2
    let v6 := verifyOTP now c v5.2
    let v7 := verifyOTP now c v6.2
    v1.1 = VerifyResult.mismatch 4 ∧ v2.1 = VerifyResult.mismatch 3 ∧
    v3.1 = VerifyResult.mismatch 2 ∧ v4.1 = VerifyResult.mismatch 1 ∧
    v5.1 = VerifyResult.mismatch 0 ∧
    v5.2 = some { r with attempts := 5 } ∧
    v6.1 = VerifyResult.exhausted ∧ v6.2 = none ∧
    v7.1 = VerifyResult.notFound := by
  simp [verifyOTP, hA, hM, hE, hC]

/-- Witness for c2_amended at a concrete record and wrong code. -/
theorem c2_amended_witness :
    let r0 : VerificationRecord := ⟨1, "e", "123456", 0, 5, 0, 0, 600000, none, none⟩
    let v1 := verifyOTP 0 "000000" (some r0)
    let v2 := verifyOTP 0 "000000" v1.2
    let v3 := verifyOTP 0 "000000" v2.2
    let v4 := verifyOTP 0 "000000" v3.2
    let v5 := verifyOTP 0 "000000" v4.2
    let v6 := verifyOTP 0 "000000" v5.2
    let v7 := verifyOTP 0 "000000" v6.2
    v1.1 = VerifyResult.mismatch 4 ∧ v2.1 = VerifyResult.mismatch 3 ∧
    v3.1 = VerifyResult.mismatch 2 ∧ v4.1 = VerifyResult.mismatch 1 ∧
    v5.1 = VerifyResult.mismatch 0 ∧
    v5.2 = some { (⟨1, "e", "123456", 0, 5, 0, 0, 600000, none, none⟩ :
      VerificationRecord) with attempts := 5 } ∧
    v6.1 = VerifyResult.exhausted ∧ v6.2 = none ∧
    v7.1 = VerifyResult.notFound :=
  c2_amended 0 ⟨1, "e", "123456", 0, 5, 0, 0, 600000, none, none⟩ "000000"
    rfl rfl (by decide) (by decide)

/-- Witness for c5_rate_limit_iff: a record last resent at time 0 with
resendCount 3 is rate-limited at time 300000 (5 minutes later) with a
5-minute wait. -/
theorem c5_witness :
    (createOTP 300000 1 "e" "999999"
      (some ⟨1, "e", "123456", 0, 5, 3, 0, 600000, none, none⟩)).1 =
      CreateResult.rateLimited 5 := by
  have h := (c5_rate_limit_iff 300000 1 "e" "999999"
    (some ⟨1, "e", "123456", 0, 5, 3, 0, 600000, none, none⟩)).2
    ⟨1, "e", "123456", 0, 5, 3, 0, 600000, none, none⟩ rfl (by decide) (by decide)
  rw [h]
  decide

/-- Claim C3 states the intended no-double-decay behavior, but the code
violates it: decayBuddyStats decrements the stat fields in place without
moving lastBuddyInteraction, so a second call at the same instant subtracts
the full decay again. With happiness = fullness = 100 and the last interaction
3.4 hours ago, the first call reports 94/94 and the immediate second call
reports 88/88. -/
theorem c3_double_decay_bug :
    let p0 : UserProgress := ⟨0, 0, 0, none, 100, 100, 0, ["golden_retriever"]⟩
    let r1 := decayBuddyStats p0 12240000
    let r2 := decayBuddyStats r1.2 12240000
    r1.1.happiness = 94 ∧ r1.1.fullness = 94 ∧
    r2.1.happiness = 88 ∧ r2.1.fullness = 88 ∧ r1.1 ≠ r2.1 := by
  norm_num [decayBuddyStats, DecayResult.mk.injEq]

/-- Claim C4: a successful verify for purpose password-reset keeps the record
and stores the fresh reset token with a 5-minute expiry; reset-password
succeeds exactly when the slot holds a record whose resetToken matches and
whose resetTokenExpiresAt has not passed, deleting the record on success; a
mismatched token is rejected as invalid and a stale one as expired (both
refuse the password change). -/
theorem c4_reset_handoff :
    (∀ (now : Int) (r : VerificationRecord) (tok : String),
      ¬ r.expiresAt < now → r.attempts < r.maxAttempts →
      verifyResetOtp now r.otp tok (some r) =
        (ResetVerifyResult.verified tok,
         some { r with resetToken := some tok,
                       resetTokenExpiresAt := some (now + 5 * 60 * 1000) })) ∧
    (∀ (now : Int) (tok : String) (state : Option VerificationRecord),
      ((resetPassword now tok state).1 = ResetPasswordResult.success ↔
        ∃ r, state = some r ∧ r.resetToken = some tok ∧
          resetTokenExpired r now = false) ∧
      ((resetPassword now tok state).1 = ResetPasswordResult.success →
        (resetPassword now tok state).2 = none) ∧
      (∀ r, state = some r → r.resetToken ≠ some tok →
        (resetPassword now tok state).1 =
          ResetPasswordResult.invalidResetToken) ∧
      (∀ r, state = some r → r.resetToken = some tok →
        resetTokenExpired r now = true →
        (resetPassword now tok state).1 =
          ResetPasswordResult.expiredResetToken ∧
        (resetPassword now tok state).2 = none)) := by
  constructor
  · intro now r tok hE hA
    have hA2 : ¬ r.maxAttempts ≤ r.attempts := by omega
    simp [verifyResetOtp, hE, hA2]
  · intro now tok state
    refine ⟨?_, ?_, ?_, ?_⟩
    · cases state with
      | none => simp [resetPassword]
      | some r =>
        by_cases ht : r.resetToken = some tok
        · by_cases hx : resetTokenExpired r now
          · simp [resetPassword, ht, hx]
          · simp [resetPassword, ht, hx]
        · simp [resetPassword, ht]
    · cases state with
      | none => simp [resetPassword]
      | some r =>
        by_cases ht : r.resetToken = some tok
        · by_cases hx : resetTokenExpired r now
          · simp [resetPassword, ht, hx]
          · simp [resetPassword, ht, hx]
        · simp [resetPassword, ht]
    · rintro r rfl ht
      simp [resetPassword, ht]
    · rintro r rfl ht hx
      simp [resetPassword, ht, hx]

/-- Witness for c4_reset_handoff: a concrete verify-then-consume flow. -/
theorem c4_witness :
    verifyResetOtp 0 "123456" "tkn"
      (some ⟨1, "e", "123456", 0, 5, 0, 0, 600000, none, none⟩) =
      (ResetVerifyResult.verified "tkn",
       some ⟨1, "e", "123456", 0, 5, 0, 0, 600000, some "tkn", some 300000⟩) ∧
    (resetPassword 100 "tkn"
      (some ⟨1, "e", "123456", 0, 5, 0, 0, 600000, some "tkn", some 300000⟩)).1 =
      ResetPasswordResult.success := by
  constructor
  · have h := c4_reset_handoff.1 0
      ⟨1, "e", "123456", 0, 5, 0, 0, 600000, none, none⟩ "tkn"
      (by decide) (by decide)
    exact h.trans (by decide)
  · exact (c4_reset_handoff.2 100 "tkn"
      (some ⟨1, "e", "123456", 0, 5, 0, 0, 600000, some "tkn", some 300000⟩)).1.mpr
      ⟨⟨1, "e", "123456", 0, 5, 0, 0, 600000, some "tkn", some 300000⟩,
        rfl, rfl, by decide⟩

/-- Claim C6: updateStreak sets currentStreak to 1 when no last session date
exists; otherwise a zero day difference leaves it unchanged, a difference of
exactly one increments it, and any other difference resets it to 1;
lastSessionDate always becomes the session date. Concretely, from 2024-01-01 a
session on 2024-01-02 increments the streak and a following session on
2024-01-04 resets it to 1. -/
theorem c6_updateStreak :
    (∀ (p : UserProgress) (d : Int), p.lastSessionDate = none →
      (updateStreak p d).currentStreak = 1) ∧
    (∀ (p : UserProgress) (d last : Int), p.lastSessionDate = some last →
      (Int.ediv (d - last) 86400000 = 0 →
        (updateStreak p d).currentStreak = p.currentStreak) ∧
      (Int.ediv (d - last) 86400000 = 1 →
        (updateStreak p d).currentStreak = p.currentStreak + 1) ∧
      (Int.ediv (d - last) 86400000 ≠ 0 → Int.ediv (d - last) 86400000 ≠ 1 →
        (updateStreak p d).currentStreak = 1)) ∧
    (∀ (p : UserProgress) (d : Int),
      (updateStreak p d).lastSessionDate = some d) ∧
    (∀ p : UserProgress, p.lastSessionDate = some d20240101 →
      (updateStreak p d20240102).currentStreak = p.currentStreak + 1 ∧
      (updateStreak (updateStreak p d20240102) d20240104).currentStreak = 1) := by
  refine ⟨?_, ?_, ?_, ?_⟩
  · intro p d h
    simp [updateStreak, h]
  · intro p d last h
    refine ⟨fun h0 => ?_, fun h1 => ?_, fun h0 h1 => ?_⟩
    · simp [updateStreak, h, h0]
    · simp [updateStreak, h, h1]
    · simp [updateStreak, h, h0, h1]
  · intro p d
    simp [updateStreak]
  · intro p h
    have e1 : Int.ediv (d20240102 - d20240101) 86400000 = 1 := by decide
    have e2 : Int.ediv (d20240104 - d20240102) 86400000 = 2 := by decide
    constructor
    · simp [updateStreak, h, e1]
    · have hmid : (updateStreak p d20240102).lastSessionDate = some d20240102 := by
        simp [updateStreak]
      simp [updateStreak, hmid, e2]

/-- Witness for c6_updateStreak: the concrete scenario of the claim, starting
from a streak of 3 on 2024-01-01. -/
theorem c6_witness :
    (updateStreak ⟨0, 3, 7, some d20240101, 100, 100, 0, []⟩ d20240102).currentStreak = 3 + 1 ∧
    (updateStreak (updateStreak ⟨0, 3, 7, some d20240101, 100, 100, 0, []⟩ d20240102)
      d20240104).currentStreak = 1 :=
  c6_updateStreak.2.2.2 ⟨0, 3, 7, some d20240101, 100, 100, 0, []⟩ rfl

/-- Claim C7: after any updateStreak call, from any prior state, the longest
streak is at least the current streak; hence the invariant holds after every
call of any sequence of session dates. -/
theorem c7_longest_ge_current (p : UserProgress) (d : Int) :
    (updateStreak p d).currentStreak ≤ (updateStreak p d).longestStreak := by
  unfold updateStreak
  dsimp only
  split <;> omega

/-- Claim C8: decayBuddyStats computes the fractional hours since the last
interaction and decay = floor(hoursSince * 2); when decay is positive it lowers
happiness to max(20, happiness − decay) and fullness to max(10, fullness −
decay); it never changes lastBuddyInteraction and reports the post-decay values
with hoursSinceInteraction. Concretely, 3.4 hours idle from 100/100 gives
decay 6 and result 94/94. -/
theorem c8_decay_formula (p : UserProgress) (now : Int) :
    ((decayBuddyStats p now).2.lastBuddyInteraction = p.lastBuddyInteraction) ∧
    ((decayBuddyStats p now).1.hoursSinceInteraction =
      ((now - p.lastBuddyInteraction : Int) : ℚ) / (1000 * 60 * 60)) ∧
    (0 < ⌊((now - p.lastBuddyInteraction : Int) : ℚ) / (1000 * 60 * 60) * 2⌋ →
      (decayBuddyStats p now).2.buddyHappiness =
        max 20 (p.buddyHappiness -
          ⌊((now - p.lastBuddyInteraction : Int) : ℚ) / (1000 * 60 * 60) * 2⌋) ∧
      (decayBuddyStats p now).2.buddyFullness =
        max 10 (p.buddyFullness -
          ⌊((now - p.lastBuddyInteraction : Int) : ℚ) / (1000 * 60 * 60) * 2⌋)) ∧
    ((decayBuddyStats p now).1.happiness =
      (decayBuddyStats p now).2.buddyHappiness ∧
     (decayBuddyStats p now).1.fullness =
      (decayBuddyStats p now).2.buddyFullness) ∧
    (decayBuddyStats ⟨0, 0, 0, none, 100, 100, 0, []⟩ 12240000).1.happiness = 94 ∧
    (decayBuddyStats ⟨0, 0, 0, none, 100, 100, 0, []⟩ 12240000).1.fullness = 94 := by
  refine ⟨?_, rfl, fun hpos => ?_, ⟨rfl, rfl⟩,
    by norm_num [decayBuddyStats], by norm_num [decayBuddyStats]⟩
  · unfold decayBuddyStats
    dsimp only
    split <;> rfl
  · unfold decayBuddyStats
    dsimp only
    rw [if_pos hpos]
    exact ⟨rfl, rfl⟩

/-- Witness for c8_decay_formula: the positive-decay branch at the concrete
3.4-hour scenario. -/
theorem c8_witness :
    (decayBuddyStats ⟨0, 0, 0, none, 100, 100, 0, []⟩ 12240000).2.buddyHappiness = 94 ∧
    (decayBuddyStats ⟨0, 0, 0, none, 100, 100, 0, []⟩ 12240000).2.buddyFullness = 94 := by
  have h := (c8_decay_formula ⟨0, 0, 0, none, 100, 100, 0, []⟩ 12240000).2.2.1
    (by norm_num)
  exact ⟨h.1.trans (by norm_num), h.2.trans (by norm_num)⟩

/-- The unlocked list after checkBreedUnlocks is the original list followed by
the newly reported breeds, in loop order. -/
theorem checkBreedUnlocks_unlocked_eq (entries : List (String × Int))
    (kibble : Int) (unlocked : List String) :
    (checkBreedUnlocks entries kibble unlocked).1 =
      unlocked ++ (checkBreedUnlocks entries kibble unlocked).2 := by
  induction entries generalizing unlocked with
  | nil => simp [checkBreedUnlocks]
  | cons e rest ih =>
    obtain ⟨b, req⟩ := e
    by_cases h : req ≤ kibble ∧ b ∉ unlocked
    · simp [checkBreedUnlocks, h, ih]
    · simp [checkBreedUnlocks, h, ih]

/-- With distinct breed ids, the newly unlocked report is exactly the entries
meeting the kibble threshold and missing from the original unlocked list,
in entry order. -/
theorem checkBreedUnlocks_newly_eq (entries : List (String × Int))
    (kibble : Int) (unlocked : List String)
    (h : (entries.map Prod.fst).Nodup) :
    (checkBreedUnlocks entries kibble unlocked).2 =
      (entries.filter
        (fun e => decide (e.2 ≤ kibble ∧ e.1 ∉ unlocked))).map Prod.fst := by
  induction entries generalizing unlocked with
  | nil => simp [checkBreedUnlocks]
  | cons e rest ih =>
    obtain ⟨b, req⟩ := e
    simp only [List.map_cons, List.nodup_cons] at h
    simp only [checkBreedUnlocks]
    by_cases hc : req ≤ kibble ∧ b ∉ unlocked
    · have hcongr : ∀ e ∈ rest,
          (decide (e.2 ≤ kibble ∧ e.1 ∉ unlocked ++ [b])) =
            decide (e.2 ≤ kibble ∧ e.1 ∉ unlocked) := by
        intro e he
        have hne : e.1 ≠ b := by
          intro hEq
          exact h.1 (hEq ▸ List.mem_map_of_mem Prod.fst he)
        refine decide_eq_decide.mpr (and_congr_right fun _ => not_congr ?_)
        simp [List.mem_append, hne]
      have hfc : List.filter
          (fun e => decide (e.2 ≤ kibble ∧ e.1 ∉ unlocked ++ [b])) rest =
          List.filter (fun e => decide (e.2 ≤ kibble ∧ e.1 ∉ unlocked)) rest :=
        List.filter_congr hcongr
      rw [if_pos hc]
      dsimp only
      rw [ih (unlocked ++ [b]) h.2, hfc, List.filter_cons]
      simp [hc]
    · rw [if_neg hc]
      rw [ih unlocked h.2, List.filter_cons]
      simp [hc]

/-- Claim C9: checkBreedUnlocks reports exactly the breeds whose threshold the
kibble total meets and which are not yet unlocked, in entry order, and appends
them to the unlocked list; the fixed breed mapping is threshold-ascending, so
the report is threshold-ascending. Concretely, thresholds a:0, b:100, c:250
with 150 kibble and only a unlocked report exactly b and extend the set to
a, b. -/
theorem c9_check_unlocks :
    (∀ (entries : List (String × Int)) (kibble : Int) (unlocked : List String),
      (entries.map Prod.fst).Nodup →
      (checkBreedUnlocks entries kibble unlocked).2 =
        (entries.filter
          (fun e => decide (e.2 ≤ kibble ∧ e.1 ∉ unlocked))).map Prod.fst ∧
      (checkBreedUnlocks entries kibble unlocked).1 =
        unlocked ++ (checkBreedUnlocks entries kibble unlocked).2) ∧
    checkBreedUnlocks [("a", 0), ("b", 100), ("c", 250)] 150 ["a"] =
      (["a", "b"], ["b"]) ∧
    (BREED_UNLOCK_REQUIREMENTS.map Prod.snd).Sorted (· ≤ ·) := by
  refine ⟨fun entries kibble unlocked h =>
    ⟨checkBreedUnlocks_newly_eq entries kibble unlocked h,
     checkBreedUnlocks_unlocked_eq entries kibble unlocked⟩, by decide, by decide⟩

/-- Witness for c9_check_unlocks: the claim characterization applied to the
concrete three-entry mapping. -/
theorem c9_witness :
    (checkBreedUnlocks [("a", 0), ("b", 100), ("c", 250)] 150 ["a"]).2 =
      (([("a", 0), ("b", 100), ("c", 250)] : List (String × Int)).filter
        (fun e => decide (e.2 ≤ 150 ∧ e.1 ∉ (["a"] : List String)))).map
          Prod.fst :=
  (c9_check_unlocks.1 [("a", 0), ("b", 100), ("c", 250)] 150 ["a"]
    (by decide)).1

/-- Claim C10: the treat interaction with fewer than 10 kibble returns the
insufficient-kibble error carrying the balance and leaves the user document
entirely unchanged — no kibble deduction, no stat change, and no update of
lastBuddyInteraction. -/
theorem c10_treat_insufficient (p : UserProgress) (now : Int)
    (h : p.totalKibble < 10) :
    buddyInteract p "treat" now =
      (InteractResult.badRequest (some p.totalKibble), p) := by
  simp [buddyInteract, h]

/-- Witness for c10_treat_insufficient at a concrete user with 5 kibble. -/
theorem c10_witness :
    buddyInteract ⟨5, 0, 0, none, 50, 50, 0, []⟩ "treat" 1000 =
      (InteractResult.badRequest (some 5), ⟨5, 0, 0, none, 50, 50, 0, []⟩) :=
  c10_treat_insufficient ⟨5, 0, 0, none, 50, 50, 0, []⟩ 1000 (by decide)
